import Mathlib

/-!
Verification of the query-construction core of the jobly backend:
the partial-update SET-clause builder (helpers/sql.js), and the dynamic
filtered-search query assembly of the Company and Job model modules.

JavaScript objects are embedded as association lists in key-insertion
order (Object.keys / Object.values of one object enumerate in the same
order), JavaScript values as the inductive JsVal, and thrown errors as
an Except value carrying the error class and message.
-/

/-- JavaScript runtime values as they occur in filter/update objects:
undefined, null, booleans, numbers (integers suffice for the employee
counts and salaries used here; NaN does not arise), and strings. -/
inductive JsVal where
  | vUndef : JsVal
  | vNull : JsVal
  | vBool : Bool → JsVal
  | vNum : Int → JsVal
  | vStr : String → JsVal
deriving DecidableEq

/-- JavaScript truthiness: undefined, null, false, 0 and "" are falsy. -/
def truthy : JsVal → Bool
  | JsVal.vUndef => false
  | JsVal.vNull => false
  | JsVal.vBool b => b
  | JsVal.vNum n => if n = 0 then false else true
  | JsVal.vStr s => if s = "" then false else true

/-- JavaScript string conversion, as used by template interpolation. -/
def jsToString : JsVal → String
  | JsVal.vUndef => "undefined"
  | JsVal.vNull => "null"
  | JsVal.vBool true => "true"
  | JsVal.vBool false => "false"
  | JsVal.vNum n => toString n
  | JsVal.vStr s => s

/-- The JavaScript `>` comparison as used on the employee-count bounds:
a numeric comparison when both operands are numbers; any comparison
involving undefined is false. (The spec types both bounds as numbers,
so the other coercing cases of `>` do not arise here.) -/
def jsGt : JsVal → JsVal → Bool
  | JsVal.vNum a, JsVal.vNum b => if b < a then true else false
  | _, _ => false

/-- The error classes thrown by the modelled code: BadRequestError and
NotFoundError from expressError, each carrying its message. -/
inductive JsError where
  | badRequest : String → JsError
  | notFound : String → JsError
deriving DecidableEq

/-- Lookup in a string-valued object (`jsToSql[colName]`): the value at
the key, or none when the key is absent (i.e. undefined). -/
def lookupStr : List (String × String) → String → Option String
  | [], _ => none
  | (j, c) :: rest, k => if j = k then some c else lookupStr rest k

/-- `jsToSql[colName] || colName`: the mapped column name, falling back
to the key itself when the access yields a falsy value — undefined
(key absent) or the empty string. -/
def resolveCol (jsToSql : List (String × String)) (colName : String) : String :=
  match lookupStr jsToSql colName with
  | some c => if c = "" then colName else c
  | none => colName

/-- The `cols` array of sqlForPartialUpdate: one fragment
`"<column>"=$<idx+1>` per key of dataToUpdate, in key order. -/
def setColsList (dataToUpdate : List (String × JsVal))
    (jsToSql : List (String × String)) : List String :=
  (List.enum (dataToUpdate.map Prod.fst)).map
    (fun p => "\"" ++ resolveCol jsToSql p.2 ++ "\"=$" ++ toString (p.1 + 1))

/-- helpers/sql.js sqlForPartialUpdate: throws BadRequestError "No data"
when dataToUpdate has no keys; otherwise returns the comma-joined SET
fragments and the values of dataToUpdate in the same order. -/
def sqlForPartialUpdate (dataToUpdate : List (String × JsVal))
    (jsToSql : List (String × String)) :
    Except JsError (String × List JsVal) :=
  if (dataToUpdate.map Prod.fst).length = 0 then
    Except.error (JsError.badRequest "No data")
  else
    Except.ok (String.intercalate ", " (setColsList dataToUpdate jsToSql),
               dataToUpdate.map Prod.snd)

/-- One conditional filter block of findAll: when the condition holds,
push the bound value onto queryValues and append the predicate text
carrying the new length of queryValues as its positional parameter
(`$${queryValues.length}` read after the push); otherwise leave the
accumulator unchanged. -/
def clauseStep (cond : Bool) (predText : String) (v : JsVal)
    (acc : List String × List JsVal) : List String × List JsVal :=
  if cond then
    (acc.1 ++ [predText ++ "$" ++ toString (acc.2.length + 1)], acc.2 ++ [v])
  else acc

/-- The searchFilters object accepted by Company.findAll. -/
structure CompanySearchFilters where
  name : JsVal
  minEmployees : JsVal
  maxEmployees : JsVal

/-- The whereValues and queryValues arrays built by Company.findAll:
three truthiness-guarded blocks, for name (ILIKE on %name%),
minEmployees (>=) and maxEmployees (<=), in that order. -/
def companyClauses (f : CompanySearchFilters) : List String × List JsVal :=
  clauseStep (truthy f.maxEmployees) "num_employees <= " f.maxEmployees
    (clauseStep (truthy f.minEmployees) "num_employees >= " f.minEmployees
      (clauseStep (truthy f.name) "name ILIKE "
        (JsVal.vStr ("%" ++ jsToString f.name ++ "%"))
        ([], [])))

/-- The fixed base SELECT of Company.findAll (whitespace normalized). -/
def companyBaseQuery : String :=
  "SELECT handle, name, description, num_employees AS \"numEmployees\", logo_url AS \"logoUrl\" FROM companies"

/-- Company.findAll up to the store round-trip: the min/max sanity check,
then the assembled SQL text (base query, WHERE joined with AND only when
at least one predicate exists, ORDER BY name) with its queryValues. -/
def companyFindAllQuery (f : CompanySearchFilters) :
    Except JsError (String × List JsVal) :=
  if jsGt f.minEmployees f.maxEmployees then
    Except.error
      (JsError.badRequest "Min employees cannot be greater than the Max employees")
  else
    Except.ok
      (companyBaseQuery
        ++ (if 0 < (companyClauses f).1.length
            then " WHERE " ++ String.intercalate " AND " (companyClauses f).1
            else "")
        ++ " ORDER BY name",
       (companyClauses f).2)

/-- The searchFilters object accepted by Job.findAll. -/
structure JobSearchFilters where
  title : JsVal
  minSalary : JsVal
  hasEquity : JsVal

/-- The first two filter blocks of Job.findAll: title (ILIKE on %title%)
and minSalary (>=), truthiness-guarded. -/
def jobTitleSalaryClauses (f : JobSearchFilters) : List String × List JsVal :=
  clauseStep (truthy f.minSalary) "salary >= " f.minSalary
    (clauseStep (truthy f.title) "title ILIKE "
      (JsVal.vStr ("%" ++ jsToString f.title ++ "%"))
      ([], []))

/-- The whereValues and queryValues arrays built by Job.findAll: the two
parameterized blocks, then — only under `hasEquity === true` — the fixed
predicate `equity > 0`, which pushes no query value. -/
def jobClauses (f : JobSearchFilters) : List String × List JsVal :=
  let acc := jobTitleSalaryClauses f
  if f.hasEquity = JsVal.vBool true then (acc.1 ++ ["equity > 0"], acc.2)
  else acc

/-- The fixed base SELECT of Job.findAll (whitespace normalized). -/
def jobBaseQuery : String :=
  "SELECT j.id, j.title, j.salary, j.equity, j.company_handle AS \"companyHandle\", c.name AS \"companyName\" FROM jobs AS j LEFT JOIN companies as c on c.handle = j.company_handle"

/-- Job.findAll up to the store round-trip: the assembled SQL text and
its queryValues (Job.findAll performs no bound validation). -/
def jobFindAllQuery (f : JobSearchFilters) : String × List JsVal :=
  (jobBaseQuery
     ++ (if 0 < (jobClauses f).1.length
         then " WHERE " ++ String.intercalate " AND " (jobClauses f).1
         else "")
     ++ " ORDER BY title",
   (jobClauses f).2)

/- Substring containment over the assembled SQL text. -/

/-- Does the pattern occur at the head of the character list? -/
def matchesHere : List Char → List Char → Bool
  | _, [] => true
  | [], _ :: _ => false
  | c :: s, d :: p => if c = d then matchesHere s p else false

/-- Does the pattern occur anywhere in the character list? -/
def containsRun : List Char → List Char → Bool
  | [], pat => pat.isEmpty
  | s@(_ :: rest), pat => matchesHere s pat || containsRun rest pat

/-- Does the pattern occur as a contiguous substring of the string? -/
def strContains (s pat : String) : Bool := containsRun s.toList pat.toList

/- Spec-side description of the predicate assembler (§4.2), used to state
the corrected form of the per-filter clause claim: a list of clause items
— parameterized predicates carrying a bound value, or fixed predicate
text with no bound value — to which positions are assigned sequentially,
so that the i-th bound value belongs to the i-th parameterized item. -/

/-- A clause item of the spec's predicate assembler: a predicate that
binds one value at the next sequential position, or fixed predicate text
binding nothing. -/
inductive ClauseItem where
  | withVal : String → JsVal → ClauseItem
  | fixedText : String → ClauseItem
deriving DecidableEq

/-- Assign parameter positions sequentially: a parameterized item at
value-depth n gets position n+1 and contributes its value; fixed text
consumes no position and contributes no value. -/
def specAssignPositions : List ClauseItem → Nat → List String × List JsVal
  | [], _ => ([], [])
  | ClauseItem.withVal t v :: rest, n =>
      let p := specAssignPositions rest (n + 1)
      ((t ++ "$" ++ toString (n + 1)) :: p.1, v :: p.2)
  | ClauseItem.fixedText t :: rest, n =>
      let p := specAssignPositions rest n
      (t :: p.1, p.2)

/-- The clause items of Company.findAll: one parameterized item per
truthy filter, in the fixed order name, minEmployees, maxEmployees. -/
def specCompanyItems (f : CompanySearchFilters) : List ClauseItem :=
  (if truthy f.name then
     [ClauseItem.withVal "name ILIKE "
        (JsVal.vStr ("%" ++ jsToString f.name ++ "%"))] else [])
  ++ (if truthy f.minEmployees then
        [ClauseItem.withVal "num_employees >= " f.minEmployees] else [])
  ++ (if truthy f.maxEmployees then
        [ClauseItem.withVal "num_employees <= " f.maxEmployees] else [])

/-- The clause items of Job.findAll: parameterized items for truthy
title and minSalary, then the fixed `equity > 0` item exactly when
hasEquity is strictly true. -/
def specJobItems (f : JobSearchFilters) : List ClauseItem :=
  (if truthy f.title then
     [ClauseItem.withVal "title ILIKE "
        (JsVal.vStr ("%" ++ jsToString f.title ++ "%"))] else [])
  ++ (if truthy f.minSalary then
        [ClauseItem.withVal "salary >= " f.minSalary] else [])
  ++ (if f.hasEquity = JsVal.vBool true then
        [ClauseItem.fixedText "equity > 0"] else [])

/- Store rows and the create/update operations. A table row is an
association list from column name to value; the parameterized-query
execution interface of the store collaborator is modelled directly on
rows: SELECT by key is a lookup, INSERT appends a row, and UPDATE
applies the SET assignments to every row matched by the WHERE key. -/

/-- A stored table row: column name to value, in column order. -/
abbrev Row := List (String × JsVal)

/-- Read one column of a row (undefined when absent). -/
def lookupCol : Row → String → Option JsVal
  | [], _ => none
  | (c, v) :: rest, k => if c = k then some v else lookupCol rest k

/-- Does this companies row carry the given handle? -/
def rowHasHandle (handle : String) (r : Row) : Bool :=
  lookupCol r "handle" == some (JsVal.vStr handle)

/-- The row inserted by Company.create. -/
def newCompanyRow (handle name description : String)
    (numEmployees logoUrl : JsVal) : Row :=
  [("handle", JsVal.vStr handle), ("name", JsVal.vStr name),
   ("description", JsVal.vStr description),
   ("num_employees", numEmployees), ("logo_url", logoUrl)]

/-- The record returned by Company.create (the RETURNING list, with
num_employees and logo_url aliased to camelCase). -/
def companyReturnRecord (handle name description : String)
    (numEmployees logoUrl : JsVal) : Row :=
  [("handle", JsVal.vStr handle), ("name", JsVal.vStr name),
   ("description", JsVal.vStr description),
   ("numEmployees", numEmployees), ("logoUrl", logoUrl)]

/-- Company.create: first a duplicate pre-check read (SELECT handle FROM
companies WHERE handle = $1); if a row comes back, throw BadRequestError
"Duplicate company: <handle>"; otherwise execute the INSERT and return
the new table contents with the RETURNING record. -/
def companyCreate (db : List Row) (handle name description : String)
    (numEmployees logoUrl : JsVal) : Except JsError (List Row × Row) :=
  match db.find? (rowHasHandle handle) with
  | some _ => Except.error (JsError.badRequest ("Duplicate company: " ++ handle))
  | none =>
      Except.ok (db ++ [newCompanyRow handle name description numEmployees logoUrl],
                 companyReturnRecord handle name description numEmployees logoUrl)

/-- The column-name map Company.update passes to sqlForPartialUpdate. -/
def companyJsToSql : List (String × String) :=
  [("numEmployees", "num_employees"), ("logoUrl", "logo_url")]

/-- The SET assignments denoted by the builder's output: fragment i
assigns the resolved column of key i the i-th bound value. -/
def setPairs (dataToUpdate : List (String × JsVal))
    (jsToSql : List (String × String)) : List (String × JsVal) :=
  dataToUpdate.map (fun kv => (resolveCol jsToSql kv.1, kv.2))

/-- Store execution of a SET list on one row: columns named in the
assignments take their new value, all other columns are untouched. -/
def applySets (sets : List (String × JsVal)) (r : Row) : Row :=
  r.map (fun cv =>
    match lookupCol sets cv.1 with
    | some w => (cv.1, w)
    | none => cv)

/-- The RETURNING tail of the Company.update statement. -/
def companyUpdateReturning : String :=
  " RETURNING handle, name, description, num_employees AS \"numEmployees\", logo_url AS \"logoUrl\""

/-- The querySql and parameter list built by Company.update: the SET
clause from sqlForPartialUpdate with companyJsToSql, the WHERE keyed on
handle at position values.length + 1, and the handle appended after the
update values. -/
def companyUpdateQuery (handle : String) (data : List (String × JsVal)) :
    Except JsError (String × List JsVal) :=
  match sqlForPartialUpdate data companyJsToSql with
  | Except.error e => Except.error e
  | Except.ok sv =>
      Except.ok ("UPDATE companies SET " ++ sv.1
                   ++ " WHERE handle = $" ++ toString (sv.2.length + 1)
                   ++ companyUpdateReturning,
                 sv.2 ++ [JsVal.vStr handle])

/-- Company.update executed against the store: build the statement, run
it (rows whose handle column equals the bound handle get the SET
assignments applied), and throw NotFoundError when no row matched. -/
def companyUpdate (db : List Row) (handle : String)
    (data : List (String × JsVal)) : Except JsError (List Row × Row) :=
  match companyUpdateQuery handle data with
  | Except.error e => Except.error e
  | Except.ok _ =>
      match db.find? (rowHasHandle handle) with
      | none => Except.error (JsError.notFound ("No company: " ++ handle))
      | some r =>
          Except.ok (db.map (fun row =>
                       if rowHasHandle handle row
                       then applySets (setPairs data companyJsToSql) row
                       else row),
                     applySets (setPairs data companyJsToSql) r)

/-- Does this jobs row carry the given id? -/
def rowHasId (id : Int) (r : Row) : Bool :=
  lookupCol r "id" == some (JsVal.vNum id)

/-- The RETURNING tail of the Job.update statement. -/
def jobUpdateReturning : String :=
  " RETURNING id, title, salary, equity, company_handle AS \"companyHandle\""

/-- The querySql and parameter list built by Job.update: the SET clause
from sqlForPartialUpdate with the empty column-name map, the WHERE keyed
on id at position values.length + 1, and the id appended after the
update values. -/
def jobUpdateQuery (id : Int) (data : List (String × JsVal)) :
    Except JsError (String × List JsVal) :=
  match sqlForPartialUpdate data [] with
  | Except.error e => Except.error e
  | Except.ok sv =>
      Except.ok ("UPDATE jobs SET " ++ sv.1
                   ++ " WHERE id = $" ++ toString (sv.2.length + 1)
                   ++ jobUpdateReturning,
                 sv.2 ++ [JsVal.vNum id])

/-- Job.update executed against the store: build the statement, run it
(rows whose id column equals the bound id get the SET assignments
applied), and throw NotFoundError when no row matched. -/
def jobUpdate (db : List Row) (id : Int)
    (data : List (String × JsVal)) : Except JsError (List Row × Row) :=
  match jobUpdateQuery id data with
  | Except.error e => Except.error e
  | Except.ok _ =>
      match db.find? (rowHasId id) with
      | none => Except.error (JsError.notFound ("No job: " ++ toString id))
      | some r =>
          Except.ok (db.map (fun row =>
                       if rowHasId id row
                       then applySets (setPairs data []) row
                       else row),
                     applySets (setPairs data []) r)

/-- Modelled from the spec: the route-layer JSON-schema validation of
company update bodies is not under src; per the spec, update data for a
company can include only name, description, numEmployees and logoUrl —
in particular the handle must not be part of the data. -/
def companyUpdateDataValid (data : List (String × JsVal)) : Prop :=
  ∀ k ∈ data.map Prod.fst,
    k = "name" ∨ k = "description" ∨ k = "numEmployees" ∨ k = "logoUrl"

/-- Modelled from the spec: the route-layer JSON-schema validation of
job update bodies is not under src; per the spec, update data for a job
can include only title, salary and equity — in particular the company
handle must not be part of the data. -/
def jobUpdateDataValid (data : List (String × JsVal)) : Prop :=
  ∀ k ∈ data.map Prod.fst, k = "title" ∨ k = "salary" ∨ k = "equity"

/- Index lemmas used by the fragment/value alignment theorems. -/

theorem enumFrom_get? {α : Type} (l : List α) :
    ∀ (n i : Nat), (List.enumFrom n l).get? i =
      (l.get? i).map (fun a => (n + i, a)) := by
  induction l with
  | nil => intro n i; cases i <;> rfl
  | cons a t ih =>
      intro n i
      cases i with
      | zero => rfl
      | succ j =>
          show (List.enumFrom (n + 1) t).get? j = _
          rw [ih (n + 1) j, Nat.add_assoc, Nat.add_comm 1 j]
          rfl

theorem get?_map' {α β : Type} (f : α → β) (l : List α) (i : Nat) :
    (l.map f).get? i = (l.get? i).map f := by
  induction l generalizing i with
  | nil => cases i <;> rfl
  | cons a t ih => cases i with
      | zero => rfl
      | succ j => exact ih j

theorem setColsList_get? (d : List (String × JsVal))
    (m : List (String × String)) (i : Nat) (k : String) (v : JsVal)
    (h : d.get? i = some (k, v)) :
    (setColsList d m).get? i =
      some ("\"" ++ resolveCol m k ++ "\"=$" ++ toString (i + 1)) := by
  unfold setColsList
  rw [get?_map', List.enum, enumFrom_get?, get?_map', h]
  simp

/-- C1: for every non-empty update mapping and column map,
sqlForPartialUpdate succeeds with the comma-join of the fragment list
and the values of the mapping in key order; the fragment list has one
entry per key, the i-th fragment (0-based) is `"<column>"=$<i+1>` for
the i-th key — positions contiguous from 1 — and the i-th returned
value is exactly the i-th key's value. -/
theorem c1_setclause_alignment (d : List (String × JsVal))
    (m : List (String × String)) (hne : d ≠ []) :
    sqlForPartialUpdate d m =
      Except.ok (String.intercalate ", " (setColsList d m), d.map Prod.snd)
    ∧ (setColsList d m).length = d.length
    ∧ ∀ (i : Nat) (k : String) (v : JsVal), d.get? i = some (k, v) →
        (setColsList d m).get? i =
          some ("\"" ++ resolveCol m k ++ "\"=$" ++ toString (i + 1))
        ∧ (d.map Prod.snd).get? i = some v := by
  refine ⟨?_, ?_, ?_⟩
  · unfold sqlForPartialUpdate
    rw [if_neg]
    simp [hne]
  · simp [setColsList]
  · intro i k v h
    refine ⟨setColsList_get? d m i k v h, ?_⟩
    rw [get?_map', h]
    rfl

/-- Witness for C1 at the spec's own example:
sqlForPartialUpdate {firstName: "Aliya", age: 32} {firstName: "first_name"}. -/
theorem c1_setclause_alignment_witness :
    sqlForPartialUpdate
        [("firstName", JsVal.vStr "Aliya"), ("age", JsVal.vNum 32)]
        [("firstName", "first_name")] =
      Except.ok ("\"first_name\"=$1, \"age\"=$2",
                 [JsVal.vStr "Aliya", JsVal.vNum 32])
    ∧ (setColsList [("firstName", JsVal.vStr "Aliya"), ("age", JsVal.vNum 32)]
        [("firstName", "first_name")]).get? 1 = some "\"age\"=$2" := by
  have h := c1_setclause_alignment
    [("firstName", JsVal.vStr "Aliya"), ("age", JsVal.vNum 32)]
    [("firstName", "first_name")] (by decide)
  refine ⟨h.1.trans (by rfl), ?_⟩
  exact ((h.2.2 1 "age" (JsVal.vNum 32) (by rfl)).1).trans (by rfl)

/-- C4: for every column map, sqlForPartialUpdate on an update mapping
with zero entries fails with BadRequestError "No data"; no SET text is
built and no query value is returned. -/
theorem c4_empty_update_rejected (m : List (String × String)) :
    sqlForPartialUpdate [] m = Except.error (JsError.badRequest "No data") := by
  rfl

/-- C2 counterexample: a defined minEmployees filter given as the number
0 contributes no predicate at all — the source guards each filter block
with JavaScript truthiness, and 0 is falsy — contradicting the claim
that every defined filter contributes exactly one predicate. -/
theorem c2_zero_filter_counterexample :
    ¬ ((companyClauses
          { name := JsVal.vUndef, minEmployees := JsVal.vNum 0,
            maxEmployees := JsVal.vUndef }).1.length = 1) := by
  decide

/-- C2 (amended): each recognized filter that is truthy — for the
boolean equity flag, strictly equal to true — contributes exactly one
predicate, and (except the equity flag) binds exactly one value at the
next sequential parameter position; defined-but-falsy filter values
(0, the empty string, false, null) contribute nothing. Stated as: the
built clauses coincide with sequential position assignment over the
per-filter item lists. -/
theorem c2_clauses_refine (f : CompanySearchFilters) (g : JobSearchFilters) :
    companyClauses f = specAssignPositions (specCompanyItems f) 0
    ∧ jobClauses g = specAssignPositions (specJobItems g) 0 := by
  constructor
  · cases hn : truthy f.name <;> cases hm : truthy f.minEmployees <;>
      cases hx : truthy f.maxEmployees <;>
      simp [companyClauses, clauseStep, specCompanyItems, specAssignPositions,
            hn, hm, hx]
  · by_cases he : g.hasEquity = JsVal.vBool true <;>
      cases ht : truthy g.title <;> cases hs : truthy g.minSalary <;>
      simp [jobClauses, jobTitleSalaryClauses, clauseStep, specJobItems,
            specAssignPositions, ht, hs, he]

set_option maxRecDepth 8192 in
/-- C5: whenever no predicate was generated, the SQL text assembled by
Company.findAll (when it succeeds) and by Job.findAll contains no WHERE
keyword at all. -/
theorem c5_no_bare_where (f : CompanySearchFilters) (g : JobSearchFilters) :
    (∀ q vals, companyFindAllQuery f = Except.ok (q, vals) →
        (companyClauses f).1 = [] → strContains q "WHERE" = false)
    ∧ ((jobClauses g).1 = [] →
        strContains (jobFindAllQuery g).1 "WHERE" = false) := by
  constructor
  · intro q vals hok hemp
    unfold companyFindAllQuery at hok
    by_cases hgt : jsGt f.minEmployees f.maxEmployees = true
    · rw [if_pos hgt] at hok
      exact absurd hok (by simp)
    · rw [if_neg hgt, hemp] at hok
      simp only [List.length_nil, Nat.lt_irrefl, if_false] at hok
      injection hok with h
      injection h with h1 h2
      rw [← h1]
      rfl
  · intro hemp
    unfold jobFindAllQuery
    rw [hemp]
    simp only [List.length_nil, Nat.lt_irrefl, if_false]
    rfl

set_option maxRecDepth 8192 in
/-- Witness for C5 with no filters given on either entity. -/
theorem c5_no_bare_where_witness :
    strContains
        (companyBaseQuery ++ "" ++ " ORDER BY name") "WHERE" = false
    ∧ strContains
        (jobFindAllQuery
          ⟨JsVal.vUndef, JsVal.vUndef, JsVal.vUndef⟩).1 "WHERE" = false := by
  constructor
  · exact (c5_no_bare_where ⟨JsVal.vUndef, JsVal.vUndef, JsVal.vUndef⟩
      ⟨JsVal.vUndef, JsVal.vUndef, JsVal.vUndef⟩).1
      (companyBaseQuery ++ "" ++ " ORDER BY name") [] (by rfl) (by rfl)
  · exact (c5_no_bare_where ⟨JsVal.vUndef, JsVal.vUndef, JsVal.vUndef⟩
      ⟨JsVal.vUndef, JsVal.vUndef, JsVal.vUndef⟩).2 (by rfl)

/-- C6: when both employee bounds are given as numbers with the minimum
strictly greater than the maximum, Company.findAll fails with
BadRequestError before any query text or values are produced. -/
theorem c6_min_gt_max (f : CompanySearchFilters) (a b : Int)
    (h1 : f.minEmployees = JsVal.vNum a) (h2 : f.maxEmployees = JsVal.vNum b)
    (hab : b < a) :
    companyFindAllQuery f =
      Except.error
        (JsError.badRequest
          "Min employees cannot be greater than the Max employees") := by
  unfold companyFindAllQuery
  rw [h1, h2]
  simp [jsGt, hab]

/-- Witness for C6 at minEmployees = 3, maxEmployees = 2. -/
theorem c6_min_gt_max_witness :
    companyFindAllQuery ⟨JsVal.vUndef, JsVal.vNum 3, JsVal.vNum 2⟩ =
      Except.error
        (JsError.badRequest
          "Min employees cannot be greater than the Max employees") :=
  c6_min_gt_max ⟨JsVal.vUndef, JsVal.vNum 3, JsVal.vNum 2⟩ 3 2 rfl rfl
    (by decide)

/-- C7: Job.findAll adds the fixed predicate `equity > 0`, binding no
value, exactly when hasEquity is strictly equal to the boolean true;
for every other hasEquity value (false, numbers such as 1, strings,
null, undefined) it adds no predicate and no value. -/
theorem c7_hasEquity_strict (f : JobSearchFilters) :
    (f.hasEquity = JsVal.vBool true →
        jobClauses f = ((jobTitleSalaryClauses f).1 ++ ["equity > 0"],
                        (jobTitleSalaryClauses f).2))
    ∧ (f.hasEquity ≠ JsVal.vBool true →
        jobClauses f = jobTitleSalaryClauses f) := by
  constructor <;> intro h <;> simp [jobClauses, h]

/-- Witness for C7: hasEquity = true adds only the fixed predicate;
the truthy non-boolean hasEquity = 1 adds nothing. -/
theorem c7_hasEquity_strict_witness :
    jobClauses ⟨JsVal.vStr "a", JsVal.vUndef, JsVal.vBool true⟩ =
      (["title ILIKE $1", "equity > 0"], [JsVal.vStr "%a%"])
    ∧ jobClauses ⟨JsVal.vUndef, JsVal.vUndef, JsVal.vNum 1⟩ = ([], []) := by
  constructor
  · exact ((c7_hasEquity_strict
      ⟨JsVal.vStr "a", JsVal.vUndef, JsVal.vBool true⟩).1 rfl).trans (by rfl)
  · exact ((c7_hasEquity_strict
      ⟨JsVal.vUndef, JsVal.vUndef, JsVal.vNum 1⟩).2 (by decide)).trans (by rfl)

/- Helper lemmas shared by the create/update theorems. -/

theorem sqlForPartialUpdate_ok (d : List (String × JsVal))
    (m : List (String × String)) (hne : d ≠ []) :
    sqlForPartialUpdate d m =
      Except.ok (String.intercalate ", " (setColsList d m), d.map Prod.snd) := by
  unfold sqlForPartialUpdate
  rw [if_neg]
  simp [hne]

theorem lookupCol_eq_none (sets : List (String × JsVal)) (c : String)
    (h : ∀ p ∈ sets, p.1 ≠ c) : lookupCol sets c = none := by
  induction sets with
  | nil => rfl
  | cons p rest ih =>
      obtain ⟨a, b⟩ := p
      have ha : a ≠ c := h (a, b) (by simp)
      simp only [lookupCol, if_neg ha]
      exact ih (fun q hq => h q (by simp [hq]))

theorem applySets_preserves (sets : List (String × JsVal)) (r : Row)
    (c : String) (h : lookupCol sets c = none) :
    lookupCol (applySets sets r) c = lookupCol r c := by
  induction r with
  | nil => rfl
  | cons cv rest ih =>
      obtain ⟨a, b⟩ := cv
      simp only [applySets, List.map_cons]
      cases hl : lookupCol sets a with
      | some w =>
          by_cases hac : a = c
          · subst hac
            rw [h] at hl
            cases hl
          · simp only [hl, lookupCol, if_neg hac]
            exact ih
      | none =>
          by_cases hac : a = c
          · subst hac
            simp [hl, lookupCol]
          · simp only [hl, lookupCol, if_neg hac]
            exact ih

theorem setPairs_company_no_handle (data : List (String × JsVal))
    (h : companyUpdateDataValid data) :
    lookupCol (setPairs data companyJsToSql) "handle" = none := by
  apply lookupCol_eq_none
  intro p hp
  simp only [setPairs, List.mem_map] at hp
  obtain ⟨⟨k, v⟩, hmem, hpe⟩ := hp
  rw [← hpe]
  show resolveCol companyJsToSql k ≠ "handle"
  have hk := h k (List.mem_map_of_mem Prod.fst hmem)
  rcases hk with hk | hk | hk | hk <;> subst hk <;> decide

theorem setPairs_job_no_company_handle (data : List (String × JsVal))
    (h : jobUpdateDataValid data) :
    lookupCol (setPairs data []) "company_handle" = none := by
  apply lookupCol_eq_none
  intro p hp
  simp only [setPairs, List.mem_map] at hp
  obtain ⟨⟨k, v⟩, hmem, hpe⟩ := hp
  rw [← hpe]
  show resolveCol [] k ≠ "company_handle"
  have hk := h k (List.mem_map_of_mem Prod.fst hmem)
  rcases hk with hk | hk | hk <;> subst hk <;> decide

/-- C3 counterexample: the error Company.create throws on a duplicate
handle is BadRequestError — the very same error class the helper throws
for the InvalidInput empty-update case — so it is not a conflict error
distinct from the InvalidInput client error. -/
theorem c3_conflict_counterexample :
    companyCreate [[("handle", JsVal.vStr "c1")]] "c1" "C1" "Desc"
        (JsVal.vNum 1) JsVal.vNull
      = Except.error (JsError.badRequest "Duplicate company: c1")
    ∧ sqlForPartialUpdate [] []
      = Except.error (JsError.badRequest "No data") := by
  constructor <;> rfl

/-- C3 (amended): Company.create fails with BadRequestError
"Duplicate company: <handle>" — the same client-error class as
InvalidInput, detected by the pre-check read executed before the
insert — whenever a company with the given handle already exists;
when no duplicate exists it inserts the row and returns the full
record. -/
theorem c3_create_duplicate_check (db : List Row)
    (handle name description : String) (ne lu : JsVal) :
    ((∃ r ∈ db, rowHasHandle handle r) →
        companyCreate db handle name description ne lu =
          Except.error (JsError.badRequest ("Duplicate company: " ++ handle)))
    ∧ ((∀ r ∈ db, rowHasHandle handle r = false) →
        companyCreate db handle name description ne lu =
          Except.ok (db ++ [newCompanyRow handle name description ne lu],
                     companyReturnRecord handle name description ne lu)) := by
  constructor
  · intro hex
    have hsome : (db.find? (rowHasHandle handle)).isSome = true :=
      List.find?_isSome.mpr hex
    unfold companyCreate
    cases hfind : db.find? (rowHasHandle handle) with
    | some r => rfl
    | none => rw [hfind] at hsome; cases hsome
  · intro hall
    have hnone : db.find? (rowHasHandle handle) = none :=
      List.find?_eq_none.mpr (fun x hx => by rw [hall x hx]; simp)
    unfold companyCreate
    rw [hnone]

/-- Witness for C3 (amended): duplicate branch on a one-company table,
insert branch on the empty table. -/
theorem c3_create_duplicate_check_witness :
    companyCreate [newCompanyRow "c1" "C1" "D" (JsVal.vNum 1) JsVal.vNull]
        "c1" "X" "Y" (JsVal.vNum 2) JsVal.vNull
      = Except.error (JsError.badRequest "Duplicate company: c1")
    ∧ companyCreate [] "c2" "C2" "D" (JsVal.vNum 1) JsVal.vNull
      = Except.ok ([newCompanyRow "c2" "C2" "D" (JsVal.vNum 1) JsVal.vNull],
                   companyReturnRecord "c2" "C2" "D" (JsVal.vNum 1) JsVal.vNull) := by
  constructor
  · exact (c3_create_duplicate_check
      [newCompanyRow "c1" "C1" "D" (JsVal.vNum 1) JsVal.vNull]
      "c1" "X" "Y" (JsVal.vNum 2) JsVal.vNull).1
      ⟨newCompanyRow "c1" "C1" "D" (JsVal.vNum 1) JsVal.vNull,
       by simp, by decide⟩
  · exact ((c3_create_duplicate_check [] "c2" "C2" "D"
      (JsVal.vNum 1) JsVal.vNull).2
      (fun r hr => absurd hr (List.not_mem_nil r))).trans (by rfl)

/-- C8: for non-empty data, Company.update builds its statement by
delegating to sqlForPartialUpdate with exactly the column map
{numEmployees → num_employees, logoUrl → logo_url}, appends the handle
after the update values so that it is bound at position
(number of update values + 1), and fails with NotFoundError when no row
matches the handle; Job.update does the same with the empty column map
and the id as final parameter. -/
theorem c8_update_delegation (db : List Row) (handle : String) (id : Int)
    (data : List (String × JsVal)) (hne : data ≠ []) :
    companyUpdateQuery handle data =
      Except.ok ("UPDATE companies SET "
                   ++ String.intercalate ", " (setColsList data companyJsToSql)
                   ++ " WHERE handle = $" ++ toString (data.length + 1)
                   ++ companyUpdateReturning,
                 data.map Prod.snd ++ [JsVal.vStr handle])
    ∧ (data.map Prod.snd ++ [JsVal.vStr handle]).get? data.length =
        some (JsVal.vStr handle)
    ∧ ((∀ r ∈ db, rowHasHandle handle r = false) →
        companyUpdate db handle data =
          Except.error (JsError.notFound ("No company: " ++ handle)))
    ∧ jobUpdateQuery id data =
      Except.ok ("UPDATE jobs SET "
                   ++ String.intercalate ", " (setColsList data [])
                   ++ " WHERE id = $" ++ toString (data.length + 1)
                   ++ jobUpdateReturning,
                 data.map Prod.snd ++ [JsVal.vNum id])
    ∧ ((∀ r ∈ db, rowHasId id r = false) →
        jobUpdate db id data =
          Except.error (JsError.notFound ("No job: " ++ toString id))) := by
  have hc := sqlForPartialUpdate_ok data companyJsToSql hne
  have hj := sqlForPartialUpdate_ok data [] hne
  have hcq : companyUpdateQuery handle data =
      Except.ok ("UPDATE companies SET "
                   ++ String.intercalate ", " (setColsList data companyJsToSql)
                   ++ " WHERE handle = $" ++ toString (data.length + 1)
                   ++ companyUpdateReturning,
                 data.map Prod.snd ++ [JsVal.vStr handle]) := by
    unfold companyUpdateQuery
    rw [hc]
    simp [List.length_map]
  have hjq : jobUpdateQuery id data =
      Except.ok ("UPDATE jobs SET "
                   ++ String.intercalate ", " (setColsList data [])
                   ++ " WHERE id = $" ++ toString (data.length + 1)
                   ++ jobUpdateReturning,
                 data.map Prod.snd ++ [JsVal.vNum id]) := by
    unfold jobUpdateQuery
    rw [hj]
    simp [List.length_map]
  refine ⟨hcq, ?_, ?_, hjq, ?_⟩
  · rw [← List.length_map data Prod.snd]
    rw [List.get?_eq_getElem?]
    exact List.getElem?_concat_length (data.map Prod.snd) (JsVal.vStr handle)
  · intro hall
    have hnone : db.find? (rowHasHandle handle) = none :=
      List.find?_eq_none.mpr (fun x hx => by rw [hall x hx]; simp)
    unfold companyUpdate
    rw [hcq, hnone]
  · intro hall
    have hnone : db.find? (rowHasId id) = none :=
      List.find?_eq_none.mpr (fun x hx => by rw [hall x hx]; simp)
    unfold jobUpdate
    rw [hjq, hnone]

/-- Witness for C8 on a one-row table without the targeted key. -/
theorem c8_update_delegation_witness :
    companyUpdateQuery "c9" [("name", JsVal.vStr "N")] =
      Except.ok ("UPDATE companies SET "
                   ++ String.intercalate ", "
                        (setColsList [("name", JsVal.vStr "N")] companyJsToSql)
                   ++ " WHERE handle = $" ++ toString (1 + 1)
                   ++ companyUpdateReturning,
                 [JsVal.vStr "N", JsVal.vStr "c9"])
    ∧ companyUpdate [[("handle", JsVal.vStr "c1")]] "c9"
        [("name", JsVal.vStr "N")] =
      Except.error (JsError.notFound ("No company: " ++ "c9"))
    ∧ jobUpdate [[("id", JsVal.vNum 1)]] 9 [("title", JsVal.vStr "T")] =
      Except.error (JsError.notFound ("No job: " ++ toString (9 : Int))) := by
  have h1 := c8_update_delegation [[("handle", JsVal.vStr "c1")]] "c9" 9
    [("name", JsVal.vStr "N")] (by decide)
  have h2 := c8_update_delegation [[("id", JsVal.vNum 1)]] "c9" 9
    [("title", JsVal.vStr "T")] (by decide)
  refine ⟨h1.1.trans (by rfl), ?_, ?_⟩
  · exact h1.2.2.1 (by decide)
  · exact h2.2.2.2.2 (by decide)

/-- C9: the identifying fields are immutable under update. Reason:
spec-modelled route validation restricts the update data fields, so the
generated SET columns never include handle (companies) or company_handle
(jobs); hence every Company.update leaves the handle column of every
stored row unchanged, and every Job.update leaves the company_handle
column of every stored row unchanged. -/
theorem c9_update_preserves_identifiers :
    (∀ (db : List Row) (handle : String) (data : List (String × JsVal))
        (db2 : List Row) (ret : Row),
        companyUpdateDataValid data →
        companyUpdate db handle data = Except.ok (db2, ret) →
        db2.map (fun r => lookupCol r "handle") =
          db.map (fun r => lookupCol r "handle"))
    ∧ (∀ (db : List Row) (id : Int) (data : List (String × JsVal))
        (db2 : List Row) (ret : Row),
        jobUpdateDataValid data →
        jobUpdate db id data = Except.ok (db2, ret) →
        db2.map (fun r => lookupCol r "company_handle") =
          db.map (fun r => lookupCol r "company_handle")) := by
  constructor
  · intro db handle data db2 ret hvalid hok
    unfold companyUpdate at hok
    split at hok
    · cases hok
    · split at hok
      · cases hok
      · injection hok with h
        injection h with h1 h2
        rw [← h1, List.map_map]
        apply List.map_congr_left
        intro row hrow
        simp only [Function.comp_apply]
        by_cases hmatch : rowHasHandle handle row = true
        · rw [if_pos hmatch]
          exact applySets_preserves _ _ _ (setPairs_company_no_handle data hvalid)
        · rw [if_neg hmatch]
  · intro db id data db2 ret hvalid hok
    unfold jobUpdate at hok
    split at hok
    · cases hok
    · split at hok
      · cases hok
      · injection hok with h
        injection h with h1 h2
        rw [← h1, List.map_map]
        apply List.map_congr_left
        intro row hrow
        simp only [Function.comp_apply]
        by_cases hmatch : rowHasId id row = true
        · rw [if_pos hmatch]
          exact applySets_preserves _ _ _ (setPairs_job_no_company_handle data hvalid)
        · rw [if_neg hmatch]

/-- Witness for C9: updating name of company c1 and title of job 7
leaves the handle and company_handle columns untouched. -/
theorem c9_update_preserves_identifiers_witness :
    ([[("handle", JsVal.vStr "c1"), ("name", JsVal.vStr "New")]] : List Row).map
        (fun r => lookupCol r "handle")
      = ([[("handle", JsVal.vStr "c1"), ("name", JsVal.vStr "Old")]] : List Row).map
          (fun r => lookupCol r "handle")
    ∧ ([[("id", JsVal.vNum 7), ("title", JsVal.vStr "U"),
          ("company_handle", JsVal.vStr "c1")]] : List Row).map
        (fun r => lookupCol r "company_handle")
      = ([[("id", JsVal.vNum 7), ("title", JsVal.vStr "T"),
            ("company_handle", JsVal.vStr "c1")]] : List Row).map
          (fun r => lookupCol r "company_handle") := by
  constructor
  · exact c9_update_preserves_identifiers.1
      [[("handle", JsVal.vStr "c1"), ("name", JsVal.vStr "Old")]] "c1"
      [("name", JsVal.vStr "New")]
      [[("handle", JsVal.vStr "c1"), ("name", JsVal.vStr "New")]]
      [("handle", JsVal.vStr "c1"), ("name", JsVal.vStr "New")]
      (by unfold companyUpdateDataValid; decide) (by rfl)
  · exact c9_update_preserves_identifiers.2
      [[("id", JsVal.vNum 7), ("title", JsVal.vStr "T"),
        ("company_handle", JsVal.vStr "c1")]] 7
      [("title", JsVal.vStr "U")]
      [[("id", JsVal.vNum 7), ("title", JsVal.vStr "U"),
        ("company_handle", JsVal.vStr "c1")]]
      [("id", JsVal.vNum 7), ("title", JsVal.vStr "U"),
       ("company_handle", JsVal.vStr "c1")]
      (by unfold jobUpdateDataValid; decide) (by rfl)

/-- C10: the `|| colName` fallback fires not only when the key is absent
from the column map but for any falsy mapped value: when the key maps to
the empty string (the only falsy string) or is unmapped, the resolved
column is the key itself, and the emitted SET fragment quotes the key —
never the empty string. -/
theorem c10_falsy_column_fallback (m : List (String × String)) (k : String)
    (d : List (String × JsVal)) (i : Nat) (v : JsVal)
    (hfalsy : lookupStr m k = some "" ∨ lookupStr m k = none)
    (hk : d.get? i = some (k, v)) :
    resolveCol m k = k
    ∧ (setColsList d m).get? i =
        some ("\"" ++ k ++ "\"=$" ++ toString (i + 1)) := by
  have hres : resolveCol m k = k := by
    unfold resolveCol
    rcases hfalsy with h | h <;> simp [h]
  refine ⟨hres, ?_⟩
  rw [setColsList_get? d m i k v hk, hres]

/-- Witness for C10: a column map sending firstName to the empty
string still yields the fragment quoting firstName. -/
theorem c10_falsy_column_fallback_witness :
    resolveCol [("firstName", "")] "firstName" = "firstName"
    ∧ (setColsList [("firstName", JsVal.vStr "A")]
        [("firstName", "")]).get? 0 =
        some ("\"" ++ "firstName" ++ "\"=$" ++ toString (0 + 1)) :=
  c10_falsy_column_fallback [("firstName", "")] "firstName"
    [("firstName", JsVal.vStr "A")] 0 (JsVal.vStr "A")
    (Or.inl rfl) rfl
